import Mathlib

/-!
Form submit handler (`assets/js/script.js`).

A shallow embedding of the page script: the `DOMContentLoaded` callback, the
`setMessage` helper and the asynchronous `submit` listener.

Host (browser) behaviour the script relies on is modelled as follows.

* The DOM state the script can touch is a record: the form (its fields, the
  first `button[type="submit"]` inside it, its `submit` listeners) and the
  `#msg` element.  The three elements are distinct nodes.
* `classList` is a token list: `add` appends a token that is not yet there,
  `remove` deletes the given tokens.  Every token the script passes is a valid
  (non-empty, whitespace-free) token.
* `form.reportValidity()` and the settlement of `fetch` are inputs: a boolean
  and a `NetResult`.
* An `async` listener runs synchronously up to its `await` and is resumed when
  the awaited promise settles, so the listener is split in `handlerStart` and
  `handlerResume`.
* Every host call the script makes is appended to a trace of `Effect`s, in
  program order.
-/

namespace FormScript

/-! ## Data model -/

/-- A form control that carries a value. -/
structure Field where
  name : String
  value : String
  defaultValue : String
deriving DecidableEq, Repr

/-- The submit control: `form.querySelector('button[type="submit"]')`. -/
structure Button where
  classList : List String
  disabled : Bool
deriving DecidableEq, Repr

/-- The status display element: `document.getElementById("msg")`. -/
structure StatusElem where
  textContent : String
  classList : List String
deriving DecidableEq, Repr

/-- The form element: `document.getElementById("myForm")`. -/
structure Form where
  fields : List Field
  submitBtn : Option Button
  submitListeners : Nat
deriving DecidableEq, Repr

/-- What a `fetch` call sends. -/
structure Request where
  url : String
  method : String
  body : List (String × String)
deriving DecidableEq, Repr

/-- Host calls made by the script, in the order they are made. -/
inductive Effect where
  | getElementById (id : String)
  | querySelector (selector : String)
  | addEventListener (type : String)
  | preventDefault
  | reportValidity (result : Bool)
  | msgSetText (text : String)
  | msgClassRemove (tokens : List String)
  | msgClassAdd (token : String)
  | btnClassAdd (token : String)
  | btnClassRemove (token : String)
  | btnSetDisabled (value : Bool)
  | fetch (req : Request)
  | formReset
deriving DecidableEq, Repr

/-- The document when the page-ready callback runs. -/
structure Page where
  form : Option Form
  msg : Option StatusElem
  trace : List Effect
deriving DecidableEq, Repr

/-- The state seen by the submit listener: `form` is the non-null element
captured by the closure, `msg` may be null, `form.submitBtn` may be null. -/
structure World where
  form : Form
  msg : Option StatusElem
  trace : List Effect
deriving DecidableEq, Repr

/-- A `Response` as delivered by `fetch`. -/
structure Response where
  ok : Bool
  status : Nat
  statusText : String
  headers : List (String × String)
  body : String
deriving DecidableEq, Repr

/-- How the promise returned by `fetch` settles. -/
inductive NetResult where
  | resolved (response : Response)
  | rejected (reason : String)
deriving DecidableEq, Repr

/-! ## Host operations -/

/-- The endpoint: `const scriptURL`. -/
def scriptURL : String :=
  "https://script.google.com/macros/s/AKfycbxru3-7RT-dceQraVQpFjPX4zTBo3UVYh9IISq6EAChV2KhUu6-_XYjqT6iBTdLUH78vQ/exec"

/-- The three style classes `setMessage` clears. -/
def messageClasses : List String :=
  ["message--success", "message--error", "message--pending"]

/-- Token list `add`: append the token unless it is already present. -/
def classListAdd (cl : List String) (token : String) : List String :=
  if token ∈ cl then cl else cl ++ [token]

/-- Token list `remove`: delete every listed token. -/
def classListRemove (cl : List String) (tokens : List String) : List String :=
  cl.filter (fun c => decide (c ∉ tokens))

/-- The entry list of `new FormData(form)`: one entry per named field, with
the value the field holds when the constructor runs. -/
def FormData (form : Form) : List (String × String) :=
  (form.fields.filter (fun f => decide (f.name ≠ ""))).map (fun f => (f.name, f.value))

/-- Host `form.reset()`: every field goes back to its default value. -/
def resetFields (fields : List Field) : List Field :=
  fields.map (fun f => { f with value := f.defaultValue })

/-- Append one host call to the trace. -/
def World.log (e : Effect) (w : World) : World :=
  { w with trace := w.trace ++ [e] }

/-! ## The script -/

/-- Source `setMessage(text, type)`; an empty `type` is the falsy case. -/
def setMessage (text type : String) (w : World) : World :=
  match w.msg with
  | none => w
  | some msg =>
    let msg := { msg with textContent := text }
    let w := { w with msg := some msg, trace := w.trace ++ [Effect.msgSetText text] }
    let msg := { msg with classList := classListRemove msg.classList messageClasses }
    let w := { w with msg := some msg, trace := w.trace ++ [Effect.msgClassRemove messageClasses] }
    if type ≠ "" then
      let msg := { msg with classList := classListAdd msg.classList ("message--" ++ type) }
      { w with msg := some msg, trace := w.trace ++ [Effect.msgClassAdd ("message--" ++ type)] }
    else w

/-- Source `submitBtn?.classList.add(token)`. -/
def btnClassAdd (token : String) (w : World) : World :=
  match w.form.submitBtn with
  | none => w
  | some b =>
    { w with
      form := { w.form with submitBtn := some { b with classList := classListAdd b.classList token } }
      trace := w.trace ++ [Effect.btnClassAdd token] }

/-- Source `submitBtn?.classList.remove(token)`. -/
def btnClassRemove (token : String) (w : World) : World :=
  match w.form.submitBtn with
  | none => w
  | some b =>
    { w with
      form := { w.form with submitBtn := some { b with classList := classListRemove b.classList [token] } }
      trace := w.trace ++ [Effect.btnClassRemove token] }

/-- Source `if (submitBtn) submitBtn.disabled = value`. -/
def btnSetDisabled (value : Bool) (w : World) : World :=
  match w.form.submitBtn with
  | none => w
  | some b =>
    { w with
      form := { w.form with submitBtn := some { b with disabled := value } }
      trace := w.trace ++ [Effect.btnSetDisabled value] }

/-- Source `form.reset()`: the host resets the fields. -/
def formReset (w : World) : World :=
  { w with
    form := { w.form with fields := resetFields w.form.fields }
    trace := w.trace ++ [Effect.formReset] }

/-- The request built by `fetch(scriptURL, { method: "POST", body: new FormData(form) })`. -/
def buildRequest (w : World) : Request :=
  { url := scriptURL, method := "POST", body := FormData w.form }

/-- The submit listener from its first statement to the `await`: returns the
state and, when the listener is suspended on `fetch`, the request it sent;
`none` is the early `return` of the validation branch. `valid` is the result
of `form.reportValidity()`. -/
def handlerStart (valid : Bool) (w : World) : World × Option Request :=
  let w := w.log Effect.preventDefault
  let w := w.log (Effect.reportValidity valid)
  if !valid then
    (setMessage "Please fill out all required fields." "error" w, none)
  else
    let w := btnClassAdd "is-loading" w
    let w := btnSetDisabled true w
    let w := setMessage "Submitting..." "pending" w
    let req := buildRequest w
    (w.log (Effect.fetch req), some req)

/-- The body of the `try` block after the `await`: `Except.error` is a thrown
exception (the rejection reason of `fetch`, or `new Error("Network")`),
paired with the state at the throw. -/
def tryBlock (net : NetResult) (w : World) : Except (String × World) World :=
  match net with
  | NetResult.rejected reason => Except.error (reason, w)
  | NetResult.resolved response =>
    if !response.ok then Except.error ("Network", w)
    else
      let w := setMessage "Submitted successfully!" "success" w
      Except.ok (formReset w)

/-- The submit listener from the settlement of `fetch` to its end:
`try` / `catch` / `finally`. -/
def handlerResume (net : NetResult) (w : World) : World :=
  let w :=
    match tryBlock net w with
    | Except.ok w => w
    | Except.error (_, w) => setMessage "Submission failed. Try again." "error" w
  let w := btnClassRemove "is-loading" w
  btnSetDisabled false w

/-- One whole submission attempt with nothing interleaved: the listener run
from the submit event to its end. -/
def handler (valid : Bool) (net : NetResult) (w : World) : World :=
  match handlerStart valid w with
  | (w, none) => w
  | (w, some _) => handlerResume net w

/-- The `DOMContentLoaded` callback. A callback that returns normally gives
`Except.ok`; the script has no statement that throws here. -/
def onDOMContentLoaded (p : Page) : Except String Page :=
  let p := { p with trace := p.trace ++ [Effect.getElementById "myForm"] }
  match p.form with
  | none => Except.ok p
  | some form =>
    let p := { p with trace := p.trace ++ [Effect.getElementById "msg"] }
    let p := { p with trace := p.trace ++ [Effect.querySelector "button[type=\"submit\"]"] }
    Except.ok
      { p with
        form := some { form with submitListeners := form.submitListeners + 1 }
        trace := p.trace ++ [Effect.addEventListener "submit"] }

/-- The listener's view of a page whose form exists. -/
def Page.world (p : Page) : Option World :=
  p.form.map (fun form => { form := form, msg := p.msg, trace := p.trace })

/-! ## Interleaved submissions -/

/-- The page together with the requests whose `fetch` has not settled yet;
each one has a suspended listener waiting on it. -/
structure Sys where
  world : World
  pending : List Request
deriving DecidableEq, Repr

/-- What can happen to the page: a submit event is dispatched (with the result
`reportValidity` will give), or the pending request number `idx` settles. -/
inductive Event where
  | submit (valid : Bool)
  | settle (idx : Nat) (net : NetResult)
deriving DecidableEq, Repr

/-- One step of the page. Settling a request that is not pending is no step. -/
def Sys.step (s : Sys) : Event → Sys
  | Event.submit valid =>
    match handlerStart valid s.world with
    | (w, none) => { world := w, pending := s.pending }
    | (w, some req) => { world := w, pending := s.pending ++ [req] }
  | Event.settle idx net =>
    if idx < s.pending.length then
      { world := handlerResume net s.world, pending := s.pending.eraseIdx idx }
    else s

/-- Run a sequence of events. -/
def Sys.run (s : Sys) (events : List Event) : Sys :=
  events.foldl Sys.step s

/-- A page on which nothing has been submitted yet. -/
def Sys.init (w : World) : Sys :=
  { world := w, pending := [] }

/-- The submit control exists and is enabled. -/
def World.controlEnabled (w : World) : Bool :=
  match w.form.submitBtn with
  | none => false
  | some b => !b.disabled

/-- The submit control exists, is disabled and carries `is-loading`. -/
def World.controlBusy (w : World) : Bool :=
  match w.form.submitBtn with
  | none => false
  | some b => b.disabled && decide ("is-loading" ∈ b.classList)

/-- Every submit event of the sequence is dispatched while the submit control
is enabled: the events a user produces through the submit control alone. -/
def Sys.viaControl (s : Sys) : List Event → Bool
  | [] => true
  | Event.submit valid :: rest =>
    s.world.controlEnabled && Sys.viaControl (s.step (Event.submit valid)) rest
  | Event.settle idx net :: rest => Sys.viaControl (s.step (Event.settle idx net)) rest

/-- The requests sent during a trace. -/
def fetches : List Effect → List Request
  | [] => []
  | Effect.fetch req :: rest => req :: fetches rest
  | _ :: rest => fetches rest

/-- The awaited `fetch` did not end in a response with `ok` set: it was
rejected, or `response.ok` is false. -/
def NetResult.failed : NetResult → Bool
  | NetResult.resolved response => !response.ok
  | NetResult.rejected _ => true

/-- The host calls of a valid attempt on a page where both the status element
and the submit control exist, in program order. -/
def attemptEffects (form : Form) (net : NetResult) : List Effect :=
  [ Effect.preventDefault, Effect.reportValidity true,
    Effect.btnClassAdd "is-loading", Effect.btnSetDisabled true,
    Effect.msgSetText "Submitting...", Effect.msgClassRemove messageClasses,
    Effect.msgClassAdd "message--pending",
    Effect.fetch ⟨scriptURL, "POST", FormData form⟩ ]
  ++ (if net.failed then
        [ Effect.msgSetText "Submission failed. Try again.",
          Effect.msgClassRemove messageClasses, Effect.msgClassAdd "message--error" ]
      else
        [ Effect.msgSetText "Submitted successfully!",
          Effect.msgClassRemove messageClasses, Effect.msgClassAdd "message--success",
          Effect.formReset ])
  ++ [ Effect.btnClassRemove "is-loading", Effect.btnSetDisabled false ]

/-- The element a host call acts on exists in `w`: calls on the status element
need `msg`, calls on the submit control need `submitBtn`. -/
def Effect.possibleIn (w : World) : Effect → Bool
  | Effect.msgSetText _ => w.msg.isSome
  | Effect.msgClassRemove _ => w.msg.isSome
  | Effect.msgClassAdd _ => w.msg.isSome
  | Effect.btnClassAdd _ => w.form.submitBtn.isSome
  | Effect.btnClassRemove _ => w.form.submitBtn.isSome
  | Effect.btnSetDisabled _ => w.form.submitBtn.isSome
  | _ => true

/-- The status element shows `text` with the style `type`, one of the three
categories, and with neither of the two others. -/
def StatusElem.shows (m : StatusElem) (text type : String) : Prop :=
  m.textContent = text
    ∧ ∀ c ∈ messageClasses, c ∈ m.classList ↔ c = "message--" ++ type

/-- The result text of a valid attempt. -/
def resultText (net : NetResult) : String :=
  if net.failed then "Submission failed. Try again." else "Submitted successfully!"

/-- The result style of a valid attempt. -/
def resultType (net : NetResult) : String :=
  if net.failed then "error" else "success"

/-- The invariant of submissions made through the submit control: nothing is
pending, or one request is pending and the control is busy. -/
def Sys.SingleFlight (s : Sys) : Prop :=
  s.pending = [] ∨ (s.pending.length = 1 ∧ s.world.controlBusy = true)

/-! ## Sample pages -/

/-- A page with a status element, a submit button and two filled fields. -/
def sampleWorld : World :=
  { form :=
      { fields := [⟨"name", "Ada", ""⟩, ⟨"email", "ada@example.org", ""⟩]
        submitBtn := some ⟨["btn"], false⟩
        submitListeners := 1 }
    msg := some ⟨"", ["message"]⟩
    trace := [] }

/-- A 200 response. -/
def sampleOk : Response :=
  { ok := true, status := 200, statusText := "OK", headers := [], body := "done" }

/-- A 500 response. -/
def sampleFail : Response :=
  { ok := false, status := 500, statusText := "Internal Server Error", headers := [], body := "" }

/-! ## Token list lemmas -/

theorem mem_classListAdd (cl : List String) (t c : String) :
    c ∈ classListAdd cl t ↔ c ∈ cl ∨ c = t := by
  unfold classListAdd
  split
  · constructor
    · intro h; exact Or.inl h
    · rintro (h | h)
      · exact h
      · subst h; assumption
  · simp

theorem mem_classListRemove (cl ts : List String) (c : String) :
    c ∈ classListRemove cl ts ↔ c ∈ cl ∧ c ∉ ts := by
  simp [classListRemove]

theorem filter_classListRemove (cl ts : List String) :
    (classListRemove cl ts).filter (fun c => decide (c ∉ ts))
      = cl.filter (fun c => decide (c ∉ ts)) := by
  simp [classListRemove, List.filter_filter]

theorem filter_classListAdd_of_mem (cl ts : List String) (t : String) (ht : t ∈ ts) :
    (classListAdd cl t).filter (fun c => decide (c ∉ ts))
      = cl.filter (fun c => decide (c ∉ ts)) := by
  unfold classListAdd
  split
  · rfl
  · simp [List.filter_append, ht]

theorem classListAdd_remove_idem (cl ts : List String) (t : String) (ht : t ∈ ts) :
    classListAdd (classListRemove (classListAdd (classListRemove cl ts) t) ts) t
      = classListAdd (classListRemove cl ts) t := by
  have h1 : classListRemove (classListAdd (classListRemove cl ts) t) ts
      = classListRemove cl ts := by
    have := filter_classListAdd_of_mem (classListRemove cl ts) ts t ht
    rw [filter_classListRemove] at this
    exact this
  rw [h1]

theorem classListRemove_idem (cl ts : List String) :
    classListRemove (classListRemove cl ts) ts = classListRemove cl ts :=
  filter_classListRemove cl ts

/-! ## `setMessage` -/

theorem setMessage_none (text type : String) (form : Form) (trace : List Effect) :
    setMessage text type ⟨form, none, trace⟩ = ⟨form, none, trace⟩ := rfl

theorem setMessage_some_typed (text type : String) (htype : type ≠ "") (form : Form)
    (m : StatusElem) (trace : List Effect) :
    setMessage text type ⟨form, some m, trace⟩
      = ⟨form,
          some ⟨text, classListAdd (classListRemove m.classList messageClasses) ("message--" ++ type)⟩,
          trace ++ [Effect.msgSetText text, Effect.msgClassRemove messageClasses,
            Effect.msgClassAdd ("message--" ++ type)]⟩ := by
  simp [setMessage, htype]

theorem setMessage_some_empty (text : String) (form : Form)
    (m : StatusElem) (trace : List Effect) :
    setMessage text "" ⟨form, some m, trace⟩
      = ⟨form, some ⟨text, classListRemove m.classList messageClasses⟩,
          trace ++ [Effect.msgSetText text, Effect.msgClassRemove messageClasses]⟩ := by
  simp [setMessage]

/-- C10: `setMessage(text, type)` with `type` one of success / error / pending
/ empty. With the status element present, afterwards the text is `text`; a
class of the three `message--*` classes is present exactly when `type` is not
empty and the class is `message--<type>`; the other classes are the same, in
the same order; a second identical call leaves the element and the form as
the first call left them. With the status element absent the call changes
nothing at all. -/
theorem setMessage_categorical (text type : String)
    (htype : type ∈ ["success", "error", "pending", ""])
    (form : Form) (m : StatusElem) (trace : List Effect) :
    (∃ m', (setMessage text type ⟨form, some m, trace⟩).msg = some m'
        ∧ m'.textContent = text
        ∧ (∀ c ∈ messageClasses,
            c ∈ m'.classList ↔ (type ≠ "" ∧ c = "message--" ++ type))
        ∧ m'.classList.filter (fun c => decide (c ∉ messageClasses))
            = m.classList.filter (fun c => decide (c ∉ messageClasses))
        ∧ (setMessage text type (setMessage text type ⟨form, some m, trace⟩)).msg = some m')
      ∧ (setMessage text type ⟨form, some m, trace⟩).form = form
      ∧ (setMessage text type (setMessage text type ⟨form, some m, trace⟩)).form = form
      ∧ setMessage text type ⟨form, none, trace⟩ = ⟨form, none, trace⟩ := by
  refine ⟨?_, ?_, ?_, rfl⟩
  · by_cases h0 : type = ""
    · subst h0
      refine ⟨⟨text, classListRemove m.classList messageClasses⟩, ?_, rfl, ?_, ?_, ?_⟩
      · rw [setMessage_some_empty]
      · intro c hc
        simp [mem_classListRemove, hc]
      · exact filter_classListRemove _ _
      · rw [setMessage_some_empty, setMessage_some_empty]
        simp [classListRemove_idem]
    · have hmem : "message--" ++ type ∈ messageClasses := by
        simp only [List.mem_cons, List.mem_singleton, List.not_mem_nil, or_false] at htype
        rcases htype with h | h | h | h
        · subst h; decide
        · subst h; decide
        · subst h; decide
        · exact absurd h h0
      refine ⟨⟨text, classListAdd (classListRemove m.classList messageClasses)
          ("message--" ++ type)⟩, ?_, rfl, ?_, ?_, ?_⟩
      · rw [setMessage_some_typed _ _ h0]
      · intro c hc
        simp only [mem_classListAdd, mem_classListRemove]
        constructor
        · rintro (⟨_, h⟩ | h)
          · exact absurd hc h
          · exact ⟨h0, h⟩
        · rintro ⟨_, h⟩
          exact Or.inr h
      · rw [filter_classListAdd_of_mem _ _ _ hmem, filter_classListRemove]
      · rw [setMessage_some_typed _ _ h0, setMessage_some_typed _ _ h0]
        simp [classListAdd_remove_idem _ _ _ hmem]
  · by_cases h0 : type = ""
    · subst h0; rw [setMessage_some_empty]
    · rw [setMessage_some_typed _ _ h0]
  · by_cases h0 : type = ""
    · subst h0; rw [setMessage_some_empty, setMessage_some_empty]
    · rw [setMessage_some_typed _ _ h0, setMessage_some_typed _ _ h0]

/-- Witness for C10: the error call on a status element that carries a stale
success class. -/
theorem setMessage_categorical_witness :
    "error" ∈ ["success", "error", "pending", ""]
      ∧ ∃ m', (setMessage "Oops" "error"
          ⟨sampleWorld.form, some ⟨"old", ["message", "message--success"]⟩, []⟩).msg = some m'
        ∧ m'.textContent = "Oops"
        ∧ (∀ c ∈ messageClasses,
            c ∈ m'.classList ↔ ("error" ≠ "" ∧ c = "message--" ++ "error"))
        ∧ m'.classList.filter (fun c => decide (c ∉ messageClasses))
            = (["message", "message--success"] : List String).filter
                (fun c => decide (c ∉ messageClasses))
        ∧ (setMessage "Oops" "error" (setMessage "Oops" "error"
          ⟨sampleWorld.form, some ⟨"old", ["message", "message--success"]⟩, []⟩)).msg = some m' :=
  ⟨by decide,
    (setMessage_categorical "Oops" "error" (by decide) sampleWorld.form
      ⟨"old", ["message", "message--success"]⟩ []).1⟩

/-! ## The submit listener -/

theorem setMessage_form (text type : String) (w : World) :
    (setMessage text type w).form = w.form := by
  unfold setMessage
  split
  · rfl
  · split <;> rfl

/-- The status element after `setMessage` with a non-empty type. -/
theorem setMessage_msg_typed (text type : String) (htype : type ≠ "") (w : World)
    (m : StatusElem) (hm : w.msg = some m) :
    (setMessage text type w).msg
      = some ⟨text, classListAdd (classListRemove m.classList messageClasses)
          ("message--" ++ type)⟩ := by
  obtain ⟨form, msg, trace⟩ := w
  simp only at hm
  subst hm
  rw [setMessage_some_typed _ _ htype]

theorem shows_after_set (text type : String) (cl : List String) :
    StatusElem.shows
      ⟨text, classListAdd (classListRemove cl messageClasses) ("message--" ++ type)⟩
      text type := by
  refine ⟨rfl, ?_⟩
  intro c hc
  simp only [mem_classListAdd, mem_classListRemove]
  constructor
  · rintro (⟨_, h⟩ | h)
    · exact absurd hc h
    · exact h
  · intro h
    exact Or.inr h

theorem handler_false_form (net : NetResult) (w : World) :
    (handler false net w).form = w.form := by
  simp [handler, handlerStart, World.log, setMessage_form]

/-- C1: a submit event on which `reportValidity` is false. The listener is not
suspended on any request and the attempt is over at the early return; the host
calls it made are `preventDefault`, `reportValidity` and those of `setMessage`,
none of them a `fetch`; the form (fields and submit control) is untouched; a
status element that exists shows "Please fill out all required fields." with
`message--error` and neither `message--success` nor `message--pending`. -/
theorem invalid_submit_no_request (w : World) (net : NetResult) :
    (handlerStart false w).2 = none
      ∧ handler false net w = (handlerStart false w).1
      ∧ (∃ es, (handler false net w).trace = w.trace ++ es ∧ fetches es = []
          ∧ ∀ e ∈ es, e = Effect.preventDefault ∨ e = Effect.reportValidity false
              ∨ e = Effect.msgSetText "Please fill out all required fields."
              ∨ e = Effect.msgClassRemove messageClasses
              ∨ e = Effect.msgClassAdd "message--error")
      ∧ (handler false net w).form = w.form
      ∧ (∀ m, w.msg = some m → ∃ m', (handler false net w).msg = some m'
          ∧ m'.textContent = "Please fill out all required fields."
          ∧ "message--error" ∈ m'.classList
          ∧ "message--success" ∉ m'.classList
          ∧ "message--pending" ∉ m'.classList) := by
  obtain ⟨form, msg, trace⟩ := w
  refine ⟨rfl, rfl, ?_, ?_, ?_⟩
  · cases msg with
    | none =>
      exact ⟨[Effect.preventDefault, Effect.reportValidity false],
        by simp [handler, handlerStart, World.log, setMessage], rfl, by simp⟩
    | some m =>
      refine ⟨[Effect.preventDefault, Effect.reportValidity false,
          Effect.msgSetText "Please fill out all required fields.",
          Effect.msgClassRemove messageClasses, Effect.msgClassAdd "message--error"], ?_, rfl, ?_⟩
      · simp [handler, handlerStart, World.log, setMessage]
      · intro e he
        simp only [List.mem_cons, List.mem_singleton, List.not_mem_nil, or_false] at he
        exact he
  · simp [handler, handlerStart, World.log, setMessage_form]
  · intro m hm
    simp only at hm
    subst hm
    have hs := shows_after_set "Please fill out all required fields." "error" m.classList
    refine ⟨_, ?_, hs.1, ?_, ?_, ?_⟩
    · simp only [handler, handlerStart, World.log, Bool.not_false, if_true]
      exact setMessage_msg_typed _ _ (by decide) _ m rfl
    · exact (hs.2 "message--error" (by decide)).2 (by decide)
    · intro h
      exact absurd ((hs.2 "message--success" (by decide)).1 h) (by decide)
    · intro h
      exact absurd ((hs.2 "message--pending" (by decide)).1 h) (by decide)

/-- Witness for C1: the sample page, submitted while invalid. -/
theorem invalid_submit_no_request_witness :
    ∃ m', (handler false (NetResult.resolved sampleOk) sampleWorld).msg = some m'
      ∧ m'.textContent = "Please fill out all required fields."
      ∧ "message--error" ∈ m'.classList
      ∧ "message--success" ∉ m'.classList
      ∧ "message--pending" ∉ m'.classList :=
  (invalid_submit_no_request sampleWorld (NetResult.resolved sampleOk)).2.2.2.2
    ⟨"", ["message"]⟩ rfl

theorem classListRemove_add_remove (cl ts : List String) (t : String) (ht : t ∈ ts) :
    classListRemove (classListAdd (classListRemove cl ts) t) ts = classListRemove cl ts := by
  have := filter_classListAdd_of_mem (classListRemove cl ts) ts t ht
  rw [filter_classListRemove] at this
  exact this

theorem handler_true_trace (net : NetResult) (w : World) :
    (handler true net w).trace
      = w.trace ++ (attemptEffects w.form net).filter (Effect.possibleIn w) := by
  obtain ⟨⟨fields, btn, n⟩, msg, trace⟩ := w
  cases net with
  | rejected reason =>
    cases btn <;> cases msg <;>
      simp [handler, handlerStart, handlerResume, tryBlock, World.log, setMessage, btnClassAdd,
        btnSetDisabled, btnClassRemove, buildRequest, attemptEffects, Effect.possibleIn,
        NetResult.failed, FormData]
  | resolved r =>
    cases hok : r.ok <;> cases btn <;> cases msg <;>
      simp [handler, handlerStart, handlerResume, tryBlock, World.log, setMessage, btnClassAdd,
        btnSetDisabled, btnClassRemove, buildRequest, attemptEffects, Effect.possibleIn,
        NetResult.failed, FormData, formReset, hok]

theorem handler_true_fields (net : NetResult) (w : World) :
    (handler true net w).form.fields
      = if net.failed then w.form.fields else resetFields w.form.fields := by
  obtain ⟨⟨fields, btn, n⟩, msg, trace⟩ := w
  cases net with
  | rejected reason =>
    cases btn <;> cases msg <;>
      simp [handler, handlerStart, handlerResume, tryBlock, World.log, setMessage, btnClassAdd,
        btnSetDisabled, btnClassRemove, NetResult.failed]
  | resolved r =>
    cases hok : r.ok <;> cases btn <;> cases msg <;>
      simp [handler, handlerStart, handlerResume, tryBlock, World.log, setMessage, btnClassAdd,
        btnSetDisabled, btnClassRemove, NetResult.failed, formReset, hok]

theorem handler_true_btn (net : NetResult) (w : World) :
    (handler true net w).form.submitBtn
      = w.form.submitBtn.map (fun b =>
          ⟨classListRemove (classListAdd b.classList "is-loading") ["is-loading"], false⟩) := by
  obtain ⟨⟨fields, btn, n⟩, msg, trace⟩ := w
  cases net with
  | rejected reason =>
    cases btn <;> cases msg <;>
      simp [handler, handlerStart, handlerResume, tryBlock, World.log, setMessage, btnClassAdd,
        btnSetDisabled, btnClassRemove, NetResult.failed]
  | resolved r =>
    cases hok : r.ok <;> cases btn <;> cases msg <;>
      simp [handler, handlerStart, handlerResume, tryBlock, World.log, setMessage, btnClassAdd,
        btnSetDisabled, btnClassRemove, NetResult.failed, formReset, hok]

theorem handler_true_msg (net : NetResult) (w : World) :
    (handler true net w).msg
      = w.msg.map (fun m =>
          ⟨resultText net, classListAdd (classListRemove m.classList messageClasses)
            ("message--" ++ resultType net)⟩) := by
  obtain ⟨⟨fields, btn, n⟩, msg, trace⟩ := w
  cases net with
  | rejected reason =>
    cases btn <;> cases msg <;>
      simp [handler, handlerStart, handlerResume, tryBlock, World.log, setMessage, btnClassAdd,
        btnSetDisabled, btnClassRemove, NetResult.failed, resultText, resultType,
        classListRemove_add_remove _ messageClasses "message--pending" (by decide)]
  | resolved r =>
    cases hok : r.ok <;> cases btn <;> cases msg <;>
      simp [handler, handlerStart, handlerResume, tryBlock, World.log, setMessage, btnClassAdd,
        btnSetDisabled, btnClassRemove, NetResult.failed, formReset, hok, resultText, resultType,
        classListRemove_add_remove _ messageClasses "message--pending" (by decide)]

theorem fetches_append (xs ys : List Effect) :
    fetches (xs ++ ys) = fetches xs ++ fetches ys := by
  induction xs with
  | nil => rfl
  | cons x xs ih => cases x <;> simp [fetches, ih]

theorem fetches_attempt (net : NetResult) (w : World) :
    fetches ((attemptEffects w.form net).filter (Effect.possibleIn w))
      = [⟨scriptURL, "POST", FormData w.form⟩] := by
  obtain ⟨⟨fields, btn, n⟩, msg, trace⟩ := w
  cases hf : net.failed <;> cases btn <;> cases msg <;>
    simp [attemptEffects, Effect.possibleIn, fetches, hf]

theorem formReset_mem_attempt (net : NetResult) (w : World) :
    Effect.formReset ∈ (attemptEffects w.form net).filter (Effect.possibleIn w)
      ↔ net.failed = false := by
  obtain ⟨⟨fields, btn, n⟩, msg, trace⟩ := w
  cases hf : net.failed <;> cases btn <;> cases msg <;>
    simp [attemptEffects, Effect.possibleIn, hf]

/-- C2: a valid submission whose `fetch` resolves with `response.ok` true. At
the end a status element that exists shows "Submitted successfully!" with
`message--success` and neither of the two other styles; `form.reset()` was
called; the form has the same fields as before, each holding its default
value. -/
theorem ok_response_success_and_reset (w : World) (r : Response) (hok : r.ok = true) :
    (∀ m, w.msg = some m → ∃ m', (handler true (NetResult.resolved r) w).msg = some m'
        ∧ m'.textContent = "Submitted successfully!"
        ∧ "message--success" ∈ m'.classList
        ∧ "message--error" ∉ m'.classList
        ∧ "message--pending" ∉ m'.classList)
      ∧ Effect.formReset ∈ (handler true (NetResult.resolved r) w).trace
      ∧ (handler true (NetResult.resolved r) w).form.fields = resetFields w.form.fields
      ∧ (handler true (NetResult.resolved r) w).form.fields.map (fun f => (f.name, f.defaultValue))
          = w.form.fields.map (fun f => (f.name, f.defaultValue))
      ∧ (∀ f ∈ (handler true (NetResult.resolved r) w).form.fields, f.value = f.defaultValue) := by
  have hf : (NetResult.resolved r).failed = false := by simp [NetResult.failed, hok]
  have hfields := handler_true_fields (NetResult.resolved r) w
  rw [hf] at hfields
  simp only [Bool.false_eq_true, if_false] at hfields
  refine ⟨?_, ?_, hfields, ?_, ?_⟩
  · intro m hm
    have hs := shows_after_set "Submitted successfully!" "success" m.classList
    refine ⟨_, ?_, hs.1, ?_, ?_, ?_⟩
    · rw [handler_true_msg, hm]
      simp [resultText, resultType, hf]
    · exact (hs.2 "message--success" (by decide)).2 (by decide)
    · intro h
      exact absurd ((hs.2 "message--error" (by decide)).1 h) (by decide)
    · intro h
      exact absurd ((hs.2 "message--pending" (by decide)).1 h) (by decide)
  · rw [handler_true_trace]
    exact List.mem_append_right _ ((formReset_mem_attempt _ w).2 hf)
  · rw [hfields]
    simp [resetFields, List.map_map, Function.comp_def]
  · rw [hfields]
    intro f hfm
    simp only [resetFields, List.mem_map] at hfm
    obtain ⟨g, _, rfl⟩ := hfm
    rfl

/-- Witness for C2: the sample page and a 200 response. -/
theorem ok_response_success_and_reset_witness :
    sampleOk.ok = true
      ∧ (handler true (NetResult.resolved sampleOk) sampleWorld).form.fields
          = resetFields sampleWorld.form.fields :=
  ⟨rfl, (ok_response_success_and_reset sampleWorld sampleOk rfl).2.2.1⟩

/-- C3: a valid submission whose `fetch` resolves with `response.ok` false or
is rejected. At the end a status element that exists shows "Submission failed.
Try again." with `message--error` and neither of the two other styles;
`form.reset()` is not among the host calls of the attempt; the form's fields
are what they were before the submission. -/
theorem failed_request_error_no_reset (w : World) (net : NetResult)
    (hfail : net.failed = true) :
    (∀ m, w.msg = some m → ∃ m', (handler true net w).msg = some m'
        ∧ m'.textContent = "Submission failed. Try again."
        ∧ "message--error" ∈ m'.classList
        ∧ "message--success" ∉ m'.classList
        ∧ "message--pending" ∉ m'.classList)
      ∧ (∃ es, (handler true net w).trace = w.trace ++ es ∧ Effect.formReset ∉ es)
      ∧ (handler true net w).form.fields = w.form.fields := by
  refine ⟨?_, ?_, ?_⟩
  · intro m hm
    have hs := shows_after_set "Submission failed. Try again." "error" m.classList
    refine ⟨_, ?_, hs.1, ?_, ?_, ?_⟩
    · rw [handler_true_msg, hm]
      simp [resultText, resultType, hfail]
    · exact (hs.2 "message--error" (by decide)).2 (by decide)
    · intro h
      exact absurd ((hs.2 "message--success" (by decide)).1 h) (by decide)
    · intro h
      exact absurd ((hs.2 "message--pending" (by decide)).1 h) (by decide)
  · refine ⟨_, handler_true_trace net w, ?_⟩
    intro h
    have := (formReset_mem_attempt net w).1 h
    rw [hfail] at this
    exact absurd this (by decide)
  · rw [handler_true_fields, hfail]
    rfl

/-- Witness for C3: the sample page, once with a 500 response and once with a
rejected request. -/
theorem failed_request_error_no_reset_witness :
    (NetResult.resolved sampleFail).failed = true
      ∧ (handler true (NetResult.resolved sampleFail) sampleWorld).form.fields
          = sampleWorld.form.fields
      ∧ (NetResult.rejected "Failed to fetch").failed = true
      ∧ (handler true (NetResult.rejected "Failed to fetch") sampleWorld).form.fields
          = sampleWorld.form.fields :=
  ⟨rfl, (failed_request_error_no_reset sampleWorld (NetResult.resolved sampleFail) rfl).2.2,
    rfl, (failed_request_error_no_reset sampleWorld (NetResult.rejected "Failed to fetch") rfl).2.2⟩

theorem classListRemove_add_fresh (cl : List String) (t : String) (ht : t ∉ cl) :
    classListRemove (classListAdd cl t) [t] = cl := by
  simp only [classListAdd, ht, if_false, classListRemove, List.filter_append]
  have h1 : cl.filter (fun c => decide (c ∉ [t])) = cl := by
    rw [List.filter_eq_self]
    intro c hc
    simp only [List.mem_singleton, decide_not, Bool.not_eq_true', decide_eq_false_iff_not]
    intro h
    exact ht (h ▸ hc)
  rw [h1]
  simp

/-- Whatever the state of the submit control before a valid attempt, at its end
the control is enabled and does not carry `is-loading`. -/
theorem handler_true_control (net : NetResult) (w : World) (b : Button)
    (hb : w.form.submitBtn = some b) :
    ∃ b', (handler true net w).form.submitBtn = some b'
      ∧ b'.disabled = false ∧ "is-loading" ∉ b'.classList := by
  refine ⟨⟨classListRemove (classListAdd b.classList "is-loading") ["is-loading"], false⟩,
    ?_, rfl, ?_⟩
  · rw [handler_true_btn, hb]; rfl
  · simp [mem_classListRemove]

/-- C4, as stated, fails: on the sample page a valid submit followed, while its
request is pending, by a submit on which validation fails. The second attempt
starts with the control disabled and `is-loading`, returns at the validation
branch before the `finally` block and concludes with the control still
disabled and `is-loading`. So it is not true that every attempt ends with the
control enabled and non-loading. -/
theorem control_restored_counterexample :
    ((Sys.init sampleWorld).run [Event.submit true, Event.submit false]).world.form.submitBtn
        = some ⟨["btn", "is-loading"], true⟩
      ∧ (handlerStart true sampleWorld).1.form.submitBtn = some ⟨["btn", "is-loading"], true⟩
      ∧ (handler false (NetResult.resolved sampleOk) (handlerStart true sampleWorld).1).form.submitBtn
        = some ⟨["btn", "is-loading"], true⟩
      ∧ ¬ (∀ (valid : Bool) (net : NetResult) (w : World) (b : Button),
            w.form.submitBtn = some b →
              ∃ b', (handler valid net w).form.submitBtn = some b'
                ∧ b'.disabled = false ∧ "is-loading" ∉ b'.classList) := by
  refine ⟨by decide, by decide, by decide, ?_⟩
  intro h
  obtain ⟨b', hb', hd, _⟩ := h false (NetResult.resolved sampleOk) (handlerStart true sampleWorld).1
    ⟨["btn", "is-loading"], true⟩ (by decide)
  have hfin : (handler false (NetResult.resolved sampleOk)
      (handlerStart true sampleWorld).1).form.submitBtn = some ⟨["btn", "is-loading"], true⟩ := by
    decide
  rw [hfin] at hb'
  cases hb'
  exact absurd hd (by decide)

/-- C4, amended: an attempt whose validation passes, whether the request
succeeds, the response is not ok or the request is rejected, ends with the
submit control enabled and without `is-loading`, whatever the state of the
control before the attempt (its other classes are kept); an attempt whose
validation fails leaves the control exactly as it found it. Hence an attempt
that starts with the control enabled and without `is-loading` ends, on each of
the four paths, with the control in that same state. -/
theorem control_after_attempt (net : NetResult) (w : World) (b : Button)
    (hb : w.form.submitBtn = some b) :
    (∃ b', (handler true net w).form.submitBtn = some b'
        ∧ b'.disabled = false ∧ "is-loading" ∉ b'.classList
        ∧ ∀ c, c ≠ "is-loading" → (c ∈ b'.classList ↔ c ∈ b.classList))
      ∧ (handler false net w).form.submitBtn = some b
      ∧ (b.disabled = false → "is-loading" ∉ b.classList →
          ∀ valid : Bool, (handler valid net w).form.submitBtn = some b) := by
  refine ⟨?_, ?_, ?_⟩
  · refine ⟨⟨classListRemove (classListAdd b.classList "is-loading") ["is-loading"], false⟩,
      ?_, rfl, ?_, ?_⟩
    · rw [handler_true_btn, hb]; rfl
    · simp [mem_classListRemove]
    · intro c hc
      simp only [mem_classListRemove, mem_classListAdd, List.mem_singleton]
      constructor
      · rintro ⟨h | h, _⟩
        · exact h
        · exact absurd h hc
      · intro h
        exact ⟨Or.inl h, hc⟩
  · rw [handler_false_form, hb]
  · intro hd hl valid
    cases valid with
    | false => rw [handler_false_form, hb]
    | true =>
      rw [handler_true_btn, hb]
      obtain ⟨cl, d⟩ := b
      simp only at hd hl
      simp [classListRemove_add_fresh cl "is-loading" hl, hd]

/-- Witness for C4 amended: a valid attempt that starts while the control is
disabled and `is-loading` (the state a pending request leaves) ends with the
control enabled and without `is-loading`; an attempt on the untouched sample
page ends with the control as it was. -/
theorem control_after_attempt_witness :
    (handlerStart true sampleWorld).1.form.submitBtn = some ⟨["btn", "is-loading"], true⟩
      ∧ (∃ b', (handler true (NetResult.resolved sampleFail)
            (handlerStart true sampleWorld).1).form.submitBtn = some b'
          ∧ b'.disabled = false ∧ "is-loading" ∉ b'.classList
          ∧ ∀ c, c ≠ "is-loading" →
              (c ∈ b'.classList ↔ c ∈ (⟨["btn", "is-loading"], true⟩ : Button).classList))
      ∧ ∀ valid : Bool,
          (handler valid (NetResult.resolved sampleOk) sampleWorld).form.submitBtn
            = some ⟨["btn"], false⟩ :=
  ⟨by decide,
    (control_after_attempt (NetResult.resolved sampleFail) (handlerStart true sampleWorld).1
      ⟨["btn", "is-loading"], true⟩ (by decide)).1,
    (control_after_attempt (NetResult.resolved sampleOk) sampleWorld ⟨["btn"], false⟩ rfl).2.2
      rfl (by decide)⟩

theorem handlerStart_true_request (w : World) :
    (handlerStart true w).2 = some ⟨scriptURL, "POST", FormData w.form⟩ := by
  obtain ⟨⟨fields, btn, n⟩, msg, trace⟩ := w
  cases btn <;> cases msg <;>
    simp [handlerStart, buildRequest, FormData, World.log, setMessage, btnSetDisabled,
      btnClassAdd]

theorem handlerStart_true_fields (w : World) :
    (handlerStart true w).1.form.fields = w.form.fields := by
  obtain ⟨⟨fields, btn, n⟩, msg, trace⟩ := w
  cases btn <;> cases msg <;>
    simp [handlerStart, World.log, setMessage, btnSetDisabled, btnClassAdd]

theorem handlerStart_true_btn (w : World) :
    (handlerStart true w).1.form.submitBtn
      = w.form.submitBtn.map (fun b => ⟨classListAdd b.classList "is-loading", true⟩) := by
  obtain ⟨⟨fields, btn, n⟩, msg, trace⟩ := w
  cases btn <;> cases msg <;>
    simp [handlerStart, World.log, setMessage, btnSetDisabled, btnClassAdd]

theorem handlerStart_true_msg (w : World) :
    (handlerStart true w).1.msg
      = w.msg.map (fun m =>
          ⟨"Submitting...", classListAdd (classListRemove m.classList messageClasses)
            ("message--" ++ "pending")⟩) := by
  obtain ⟨⟨fields, btn, n⟩, msg, trace⟩ := w
  cases btn <;> cases msg <;>
    simp [handlerStart, World.log, setMessage, btnSetDisabled, btnClassAdd]

theorem handler_true_eq (net : NetResult) (w : World) :
    handler true net w = handlerResume net (handlerStart true w).1 := by
  simp [handler, handlerStart]

/-- C5: a valid submission. The listener sends exactly one request, a POST to
`scriptURL` whose body is the `FormData` of the form as it is when the submit
event arrives; the fields are still untouched while the request is pending.
The host calls of the attempt are `attemptEffects` restricted to the elements
that exist, so with both elements present they are, in this order: control
marked `is-loading`, control disabled, status "Submitting..." with
`message--pending`, the `fetch`, one result message, (`form.reset()` on
success,) `is-loading` removed, control enabled; the sequence differs between
success and failure only in the result message and the reset. While the
request is pending an existing control is disabled and `is-loading` and an
existing status element shows "Submitting..." with `message--pending` only. -/
theorem valid_submit_one_post_in_order (w : World) (net : NetResult) :
    (handlerStart true w).2 = some ⟨scriptURL, "POST", FormData w.form⟩
      ∧ (handlerStart true w).1.form.fields = w.form.fields
      ∧ handler true net w = handlerResume net (handlerStart true w).1
      ∧ (handler true net w).trace
          = w.trace ++ (attemptEffects w.form net).filter (Effect.possibleIn w)
      ∧ fetches ((attemptEffects w.form net).filter (Effect.possibleIn w))
          = [⟨scriptURL, "POST", FormData w.form⟩]
      ∧ (w.msg.isSome = true → w.form.submitBtn.isSome = true →
          (handler true net w).trace = w.trace ++
            ([ Effect.preventDefault, Effect.reportValidity true,
               Effect.btnClassAdd "is-loading", Effect.btnSetDisabled true,
               Effect.msgSetText "Submitting...", Effect.msgClassRemove messageClasses,
               Effect.msgClassAdd "message--pending",
               Effect.fetch ⟨scriptURL, "POST", FormData w.form⟩,
               Effect.msgSetText (resultText net), Effect.msgClassRemove messageClasses,
               Effect.msgClassAdd ("message--" ++ resultType net) ]
             ++ (if net.failed then [] else [Effect.formReset])
             ++ [ Effect.btnClassRemove "is-loading", Effect.btnSetDisabled false ]))
      ∧ (∀ b, w.form.submitBtn = some b →
          ∃ b', (handlerStart true w).1.form.submitBtn = some b'
            ∧ b'.disabled = true ∧ "is-loading" ∈ b'.classList)
      ∧ (∀ m, w.msg = some m →
          ∃ m', (handlerStart true w).1.msg = some m'
            ∧ m'.textContent = "Submitting..."
            ∧ "message--pending" ∈ m'.classList
            ∧ "message--success" ∉ m'.classList
            ∧ "message--error" ∉ m'.classList) := by
  refine ⟨handlerStart_true_request w, handlerStart_true_fields w, handler_true_eq net w,
    handler_true_trace net w, fetches_attempt net w, ?_, ?_, ?_⟩
  · intro hm hb
    rw [handler_true_trace]
    obtain ⟨⟨fields, btn, n⟩, msg, trace⟩ := w
    cases btn with
    | none => simp at hb
    | some b =>
      cases msg with
      | none => simp at hm
      | some m =>
        cases hf : net.failed <;>
          simp [attemptEffects, Effect.possibleIn, resultText, resultType, hf]
  · intro b hb
    refine ⟨⟨classListAdd b.classList "is-loading", true⟩, ?_, rfl, ?_⟩
    · rw [handlerStart_true_btn, hb]; rfl
    · simp [mem_classListAdd]
  · intro m hm
    have hs := shows_after_set "Submitting..." "pending" m.classList
    refine ⟨_, ?_, hs.1, ?_, ?_, ?_⟩
    · rw [handlerStart_true_msg, hm]; rfl
    · exact (hs.2 "message--pending" (by decide)).2 (by decide)
    · intro h
      exact absurd ((hs.2 "message--success" (by decide)).1 h) (by decide)
    · intro h
      exact absurd ((hs.2 "message--error" (by decide)).1 h) (by decide)

/-- Witness for C5: the sample page and a 200 response. -/
theorem valid_submit_one_post_in_order_witness :
    (handler true (NetResult.resolved sampleOk) sampleWorld).trace
      = [ Effect.preventDefault, Effect.reportValidity true,
          Effect.btnClassAdd "is-loading", Effect.btnSetDisabled true,
          Effect.msgSetText "Submitting...", Effect.msgClassRemove messageClasses,
          Effect.msgClassAdd "message--pending",
          Effect.fetch ⟨scriptURL, "POST", [("name", "Ada"), ("email", "ada@example.org")]⟩,
          Effect.msgSetText "Submitted successfully!", Effect.msgClassRemove messageClasses,
          Effect.msgClassAdd "message--success", Effect.formReset,
          Effect.btnClassRemove "is-loading", Effect.btnSetDisabled false ] :=
  (valid_submit_one_post_in_order sampleWorld (NetResult.resolved sampleOk)).2.2.2.2.2.1 rfl rfl

/-- C9: two responses with the same `ok`, whatever their status code, status
text, headers and body, lead a valid submission from the same state to the
same final state: the same status element, form fields, submit control and
host calls. The same holds for the resumed part of the listener alone, from
any state in which the response arrives. -/
theorem response_only_through_ok (w : World) (r₁ r₂ : Response) (hok : r₁.ok = r₂.ok) :
    handler true (NetResult.resolved r₁) w = handler true (NetResult.resolved r₂) w
      ∧ ∀ w' : World,
          handlerResume (NetResult.resolved r₁) w' = handlerResume (NetResult.resolved r₂) w' := by
  have hresume : ∀ w' : World,
      handlerResume (NetResult.resolved r₁) w' = handlerResume (NetResult.resolved r₂) w' := by
    intro w'
    simp only [handlerResume, tryBlock, hok]
  refine ⟨?_, hresume⟩
  rw [handler_true_eq, handler_true_eq]
  exact hresume _

/-- Witness for C9: a 200 and a 204 response with different bodies and headers. -/
theorem response_only_through_ok_witness :
    sampleOk.ok = (⟨true, 204, "No Content", [("x-id", "7")], ""⟩ : Response).ok
      ∧ handler true (NetResult.resolved sampleOk) sampleWorld
          = handler true (NetResult.resolved ⟨true, 204, "No Content", [("x-id", "7")], ""⟩)
              sampleWorld :=
  ⟨rfl, (response_only_through_ok sampleWorld sampleOk _ rfl).1⟩

/-- C7: the page-ready callback on a page without `#myForm`. The callback
returns normally; its only host call is the lookup of `myForm`: no other
lookup, no `addEventListener`, no `fetch`; the page's elements are unchanged
and there is no form on which a listener could run. -/
theorem no_form_no_action (p : Page) (hform : p.form = none) :
    onDOMContentLoaded p
        = Except.ok { form := none, msg := p.msg,
                      trace := p.trace ++ [Effect.getElementById "myForm"] }
      ∧ (∀ p', onDOMContentLoaded p = Except.ok p' →
          p'.form = p.form ∧ p'.msg = p.msg ∧ p'.world = none
            ∧ p'.trace = p.trace ++ [Effect.getElementById "myForm"]) := by
  obtain ⟨form, msg, trace⟩ := p
  simp only at hform
  subst hform
  refine ⟨rfl, ?_⟩
  intro p' hp'
  simp only [onDOMContentLoaded, Except.ok.injEq] at hp'
  subst hp'
  exact ⟨rfl, rfl, rfl, rfl⟩

/-- Witness for C7: a page that has a status element but no form. -/
theorem no_form_no_action_witness :
    onDOMContentLoaded ⟨none, some ⟨"", ["message"]⟩, []⟩
      = Except.ok ⟨none, some ⟨"", ["message"]⟩, [Effect.getElementById "myForm"]⟩ :=
  (no_form_no_action ⟨none, some ⟨"", ["message"]⟩, []⟩ rfl).1

/-! ## The three error conditions -/

/-- C6, as stated, fails: on the sample page a validation failure ends with the
text "Please fill out all required fields." and a rejected request with
"Submission failed. Try again.", so the final status of the three error
conditions is not the same. -/
theorem errors_identical_counterexample :
    (handler false (NetResult.rejected "Failed to fetch") sampleWorld).msg
        = some ⟨"Please fill out all required fields.", ["message", "message--error"]⟩
      ∧ (handler true (NetResult.rejected "Failed to fetch") sampleWorld).msg
        = some ⟨"Submission failed. Try again.", ["message", "message--error"]⟩
      ∧ ¬ (∀ (w : World) (r : Response) (reason : String), r.ok = false →
            (handler false (NetResult.resolved r) w).msg
                = (handler true (NetResult.rejected reason) w).msg
              ∧ (handler true (NetResult.rejected reason) w).msg
                = (handler true (NetResult.resolved r) w).msg
              ∧ (handler false (NetResult.resolved r) w).form.fields
                = (handler true (NetResult.rejected reason) w).form.fields
              ∧ (handler true (NetResult.rejected reason) w).form.fields
                = (handler true (NetResult.resolved r) w).form.fields) := by
  refine ⟨by decide, by decide, ?_⟩
  intro h
  have h1 := (h sampleWorld sampleFail "Failed to fetch" rfl).1
  revert h1
  decide

/-- C6, amended: a rejected request and a non-ok response end in the same
state, host calls included; a validation failure ends with the same style
classes on the status element as they do (`message--error` in place of the
three `message--*` classes) and, like them, with the form's fields as they
were; its text is "Please fill out all required fields." where theirs is
"Submission failed. Try again.". -/
theorem errors_same_style_form_kept (w : World) (r : Response) (reason : String)
    (net : NetResult) (hok : r.ok = false) :
    handler true (NetResult.rejected reason) w = handler true (NetResult.resolved r) w
      ∧ (handler false net w).msg.map (fun m => m.classList)
          = (handler true (NetResult.rejected reason) w).msg.map (fun m => m.classList)
      ∧ (handler false net w).msg.map (fun m => m.classList)
          = w.msg.map (fun m =>
              classListAdd (classListRemove m.classList messageClasses) "message--error")
      ∧ (handler false net w).form.fields = w.form.fields
      ∧ (handler true (NetResult.rejected reason) w).form.fields = w.form.fields
      ∧ (handler false net w).msg.map (fun m => m.textContent)
          = w.msg.map (fun _ => "Please fill out all required fields.")
      ∧ (handler true (NetResult.rejected reason) w).msg.map (fun m => m.textContent)
          = w.msg.map (fun _ => "Submission failed. Try again.") := by
  have hfalse : (handler false net w).msg
      = w.msg.map (fun m => ⟨"Please fill out all required fields.",
          classListAdd (classListRemove m.classList messageClasses) "message--error"⟩) := by
    obtain ⟨form, msg, trace⟩ := w
    cases msg <;> simp [handler, handlerStart, World.log, setMessage]
  have htrue := handler_true_msg (NetResult.rejected reason) w
  simp only [resultText, resultType, NetResult.failed, if_true] at htrue
  refine ⟨?_, ?_, ?_, ?_, ?_, ?_, ?_⟩
  · simp [handler, handlerStart, handlerResume, tryBlock, hok]
  · rw [hfalse, htrue]
    cases w.msg <;> simp
  · rw [hfalse]
    cases w.msg <;> simp
  · rw [handler_false_form]
  · rw [handler_true_fields]
    rfl
  · rw [hfalse]
    cases w.msg <;> simp
  · rw [htrue]
    cases w.msg <;> simp

/-- Witness for C6 amended: the sample page with a 500 response. -/
theorem errors_same_style_form_kept_witness :
    sampleFail.ok = false
      ∧ handler true (NetResult.rejected "Failed to fetch") sampleWorld
          = handler true (NetResult.resolved sampleFail) sampleWorld :=
  ⟨rfl, (errors_same_style_form_kept sampleWorld sampleFail "Failed to fetch"
    (NetResult.resolved sampleFail) rfl).1⟩

/-! ## Interleaved submissions -/

/-- C8, as stated, fails: on the sample page two submit events in a row leave
two requests pending; and when the first of them settles, one request is still
pending while the control is enabled again. So it is not true that every
reachable state has at most one pending request. -/
theorem single_flight_counterexample :
    ((Sys.init sampleWorld).run [Event.submit true, Event.submit true]).pending.length = 2
      ∧ ((Sys.init sampleWorld).run
          [Event.submit true, Event.submit true,
            Event.settle 0 (NetResult.resolved sampleOk)]).pending.length = 1
      ∧ ((Sys.init sampleWorld).run
          [Event.submit true, Event.submit true,
            Event.settle 0 (NetResult.resolved sampleOk)]).world.controlBusy = false
      ∧ ¬ (∀ (w : World) (events : List Event),
            ((Sys.init w).run events).pending.length ≤ 1
              ∧ (((Sys.init w).run events).pending ≠ [] →
                  ((Sys.init w).run events).world.controlBusy = true)) := by
  refine ⟨by decide, by decide, by decide, ?_⟩
  intro h
  have h1 := (h sampleWorld [Event.submit true, Event.submit true]).1
  revert h1
  decide

theorem controlBusy_of_start (w : World) (h : w.controlEnabled = true) :
    (handlerStart true w).1.controlBusy = true := by
  unfold World.controlBusy
  rw [handlerStart_true_btn]
  unfold World.controlEnabled at h
  cases hb : w.form.submitBtn with
  | none => rw [hb] at h; simp at h
  | some b => simp [mem_classListAdd]

theorem not_busy_of_enabled (w : World) (h : w.controlEnabled = true) :
    w.controlBusy = false := by
  unfold World.controlEnabled at h
  unfold World.controlBusy
  cases hb : w.form.submitBtn with
  | none => rfl
  | some b =>
    rw [hb] at h
    simp only [Bool.not_eq_true'] at h
    simp [h]

theorem step_submit_true (s : Sys) :
    s.step (Event.submit true)
      = ⟨(handlerStart true s.world).1, s.pending ++ [⟨scriptURL, "POST", FormData s.world.form⟩]⟩ := by
  have h : handlerStart true s.world
      = ((handlerStart true s.world).1, some ⟨scriptURL, "POST", FormData s.world.form⟩) :=
    Prod.ext rfl (handlerStart_true_request s.world)
  show (match handlerStart true s.world with
    | (w, none) => ({ world := w, pending := s.pending } : Sys)
    | (w, some req) => { world := w, pending := s.pending ++ [req] }) = _
  rw [h]

theorem step_submit_false (s : Sys) :
    s.step (Event.submit false) = ⟨(handlerStart false s.world).1, s.pending⟩ := rfl

theorem step_settle (s : Sys) (idx : Nat) (net : NetResult) :
    s.step (Event.settle idx net)
      = if idx < s.pending.length then
          { world := handlerResume net s.world, pending := s.pending.eraseIdx idx }
        else s := rfl

theorem singleFlight_step (s : Sys) (e : Event) (hinv : s.SingleFlight)
    (hgate : ∀ valid, e = Event.submit valid → s.world.controlEnabled = true) :
    (s.step e).SingleFlight := by
  cases e with
  | submit valid =>
    have hen := hgate valid rfl
    have hnb := not_busy_of_enabled _ hen
    have hp : s.pending = [] := by
      rcases hinv with h | ⟨_, h⟩
      · exact h
      · rw [hnb] at h; exact absurd h (by decide)
    cases valid with
    | false =>
      left
      rw [step_submit_false]
      exact hp
    | true =>
      right
      rw [step_submit_true]
      exact ⟨by simp [hp], controlBusy_of_start _ hen⟩
  | settle idx net =>
    rw [step_settle]
    split
    · rename_i hlt
      left
      rcases hinv with h | ⟨h, _⟩
      · rw [h] at hlt; simp at hlt
      · obtain ⟨x, hx⟩ := List.length_eq_one.1 h
        rw [hx] at hlt
        simp only [List.length_singleton, Nat.lt_one_iff] at hlt
        subst hlt
        simp [hx]
    · exact hinv

theorem singleFlight_run (events : List Event) :
    ∀ s : Sys, s.SingleFlight → s.viaControl events = true → (s.run events).SingleFlight := by
  induction events with
  | nil => intro s h _; exact h
  | cons e rest ih =>
    intro s hinv hvia
    cases e with
    | submit valid =>
      simp only [Sys.viaControl, Bool.and_eq_true] at hvia
      have := singleFlight_step s (Event.submit valid) hinv (fun _ _ => hvia.1)
      exact ih _ this hvia.2
    | settle idx net =>
      simp only [Sys.viaControl] at hvia
      have := singleFlight_step s (Event.settle idx net) hinv (fun _ h => by cases h)
      exact ih _ this hvia

/-- C8, amended: when every submit event is dispatched while the submit control
exists and is enabled (requests may settle at any moment, in any order), every
reachable state has at most one pending request, and whenever a request is
pending the control is disabled and carries `is-loading`. In any state, a
submit event on which validation passes adds exactly one pending request, the
POST to `scriptURL`, and one on which validation fails adds none. -/
theorem single_flight_via_control (w : World) (events : List Event)
    (hvia : (Sys.init w).viaControl events = true) :
    ((Sys.init w).run events).pending.length ≤ 1
      ∧ (((Sys.init w).run events).pending ≠ [] →
          ((Sys.init w).run events).world.controlBusy = true)
      ∧ (∀ s : Sys, (s.step (Event.submit true)).pending
          = s.pending ++ [⟨scriptURL, "POST", FormData s.world.form⟩])
      ∧ (∀ s : Sys, (s.step (Event.submit false)).pending = s.pending) := by
  have h := singleFlight_run events (Sys.init w) (Or.inl rfl) hvia
  refine ⟨?_, ?_, fun s => by rw [step_submit_true], fun s => by rw [step_submit_false]⟩
  · rcases h with h | ⟨h1, _⟩
    · rw [h]; simp
    · omega
  · rcases h with h | ⟨_, h2⟩
    · intro hne; exact absurd h hne
    · intro _; exact h2

/-- Witness for C8 amended: submit, settle, a rejected submit, submit again. -/
theorem single_flight_via_control_witness :
    (Sys.init sampleWorld).viaControl
        [Event.submit true, Event.settle 0 (NetResult.resolved sampleFail), Event.submit false,
          Event.submit true] = true
      ∧ ((Sys.init sampleWorld).run
        [Event.submit true, Event.settle 0 (NetResult.resolved sampleFail), Event.submit false,
          Event.submit true]).pending.length ≤ 1 :=
  ⟨by decide,
    (single_flight_via_control sampleWorld
      [Event.submit true, Event.settle 0 (NetResult.resolved sampleFail), Event.submit false,
        Event.submit true] (by decide)).1⟩

end FormScript
